import Mathlib

set_option maxRecDepth 4000

/-! Verification development for the oarkflow/swagger documentation asset router
(src/swagger.go).  The handler produced by `New` is shallowly embedded as the pure
function `handle` below: the external collaborators (the swaggo/swag document
registry, the webdav static-file provider, and the outcome of response writes) are
passed in as an explicit environment `Env`, the one-time `sync.Once` guard and the
provider's mutable `Prefix` field are threaded as an explicit `HandlerState`, and
the response (status, content-type, body, plus flags recording which observable
actions were performed) is returned as a `Response`. -/

/-- Default instance name of the swaggo/swag document registry (the external
library constant `swag.Name`, value "swagger"). -/
def swagName : String := "swagger"

/-- A reference to a `*webdav.Handler` static-file provider object.  `shared` is
the library-wide `swaggerFiles.Handler`; `custom` is any other caller-supplied
handler object. -/
inductive ProviderRef where
  | shared
  | custom (id : Nat)
deriving DecidableEq, Repr

/-- `Config` (src/swagger.go lines 32-43).  `Handler` models the `*webdav.Handler`
pointer field: `none` is Go's `nil`.  `DefaultModelsExpandDepth` is a Go `int`,
modelled as `Int`. -/
structure Config where
  URL : String
  DocExpansion : String
  InstanceName : String
  Title : String
  DefaultModelsExpandDepth : Int
  DeepLinking : Bool
  PersistAuthorization : Bool
  Oauth2DefaultClientID : String
  Handler : Option ProviderRef
deriving DecidableEq, Repr

/-- `swaggerConfig` (src/swagger.go lines 20-29), the value substituted into the
index template.  `Oauth2RedirectURL` has Go type `template.JS` (a string emitted
into the template without further escaping). -/
structure swaggerConfig where
  URL : String
  DocExpansion : String
  Title : String
  Oauth2RedirectURL : String
  DefaultModelsExpandDepth : Int
  DeepLinking : Bool
  PersistAuthorization : Bool
  Oauth2DefaultClientID : String
deriving DecidableEq, Repr
/-- Literal text of `swaggerIndexTpl` (src/swagger.go lines 180-286), piece `tplP1`. -/
def tplP1 : String :=
  "<!-- HTML for static distribution bundle build -->\n<!DOCTYPE html>\n<html lang=\"en\">\n<head>\n  <meta charset=\"UTF-8\">\n  <title>"

/-- Literal text of `swaggerIndexTpl` (src/swagger.go lines 180-286), piece `tplP2`. -/
def tplP2 : String :=
  "</title>\n  <link href=\"https://fonts.googleapis.com/css?family=Open+Sans:400,700|Source+Code+Pro:300,600|Titillium+Web:400,600,700\" rel=\"stylesheet\">\n  <link rel=\"stylesheet\" type=\"text/css\" href=\"./swagger-ui.css\" >\n  <link rel=\"icon\" type=\"image/png\" href=\"./favicon-32x32.png\" sizes=\"32x32\" />\n  <link rel=\"icon\" type=\"image/png\" href=\"./favicon-16x16.png\" sizes=\"16x16\" />\n  <style>\n    html\n    \x7b\n        box-sizing: border-box;\n        overflow: -moz-scrollbars-vertical;\n        overflow-y: scroll;\n    \x7d\n    *,\n    *:before,\n    *:after\n    \x7b\n        box-sizing: inherit;\n    \x7d\n\n    body \x7b\n      margin:0;\n      background: #fafafa;\n    \x7d\n  </style>\n</head>\n\n<body>\n\n<svg xmlns=\"http://www.w3.org/2000/svg\" xmlns:xlink=\"http://www.w3.org/1999/xlink\" style=\"position:absolute;width:0;height:0\">\n  <defs>\n    <symbol viewBox=\"0 0 20 20\" id=\"unlocked\">\n          <path d=\"M15.8 8H14V5.6C14 2.703 12.665 1 10 1 7.334 1 6 2.703 6 5.6V6h2v-.801C8 3.754 8.797 3 10 3c1.203 0 2 .754 2 2.199V8H4c-.553 0-1 .646-1 1.199V17c0 .549.428 1.139.951 1.307l1.197.387C5.672 18.861 6.55 19 7.1 19h5.8c.549 0 1.428-.139 1.951-.307l1.196-.387c.524-.167.953-.757.953-1.306V9.199C17 8.646 16.352 8 15.8 8z\"></path>\n    </symbol>\n\n    <symbol viewBox=\"0 0 20 20\" id=\"locked\">\n      <path d=\"M15.8 8H14V5.6C14 2.703 12.665 1 10 1 7.334 1 6 2.703 6 5.6V8H4c-.553 0-1 .646-1 1.199V17c0 .549.428 1.139.951 1.307l1.197.387C5.672 18.861 6.55 19 7.1 19h5.8c.549 0 1.428-.139 1.951-.307l1.196-.387c.524-.167.953-.757.953-1.306V9.199C17 8.646 16.352 8 15.8 8zM12 8H8V5.199C8 3.754 8.797 3 10 3c1.203 0 2 .754 2 2.199V8z\"/>\n    </symbol>\n\n    <symbol viewBox=\"0 0 20 20\" id=\"close\">\n      <path d=\"M14.348 14.849c-.469.469-1.229.469-1.697 0L10 11.819l-2.651 3.029c-.469.469-1.229.469-1.697 0-.469-.469-.469-1.229 0-1.697l2.758-3.15-2.759-3.152c-.469-.469-.469-1.228 0-1.697.469-.469 1.228-.469 1.697 0L10 8.183l2.651-3.031c.469-.469 1.228-.469 1.697 0 .469.469.469 1.229 0 1.697l-2.758 3.152 2.758 3.15c.469.469.469 1.229 0 1.698z\"/>\n    </symbol>\n\n    <symbol viewBox=\"0 0 20 20\" id=\"large-arrow\">\n      <path d=\"M13.25 10L6.109 2.58c-.268-.27-.268-.707 0-.979.268-.27.701-.27.969 0l7.83 7.908c.268.271.268.709 0 .979l-7.83 7.908c-.268.271-.701.27-.969 0-.268-.269-.268-.707 0-.979L13.25 10z\"/>\n    </symbol>\n\n    <symbol viewBox=\"0 0 20 20\" id=\"large-arrow-down\">\n      <path d=\"M17.418 6.109c.272-.268.709-.268.979 0s.271.701 0 .969l-7.908 7.83c-.27.268-.707.268-.979 0l-7.908-7.83c-.27-.268-.27-.701 0-.969.271-.268.709-.268.979 0L10 13.25l7.418-7.141z\"/>\n    </symbol>\n\n\n    <symbol viewBox=\"0 0 24 24\" id=\"jump-to\">\n      <path d=\"M19 7v4H5.83l3.58-3.59L8 6l-6 6 6 6 1.41-1.41L5.83 13H21V7z\"/>\n    </symbol>\n\n    <symbol viewBox=\"0 0 24 24\" id=\"expand\">\n      <path d=\"M10 18h4v-2h-4v2zM3 6v2h18V6H3zm3 7h12v-2H6v2z\"/>\n    </symbol>\n\n  </defs>\n</svg>\n\n<div id=\"swagger-ui\"></div>\n\n<script src=\"./swagger-ui-bundle.js\"> </script>\n<script src=\"./swagger-ui-standalone-preset.js\"> </script>\n<script>\nwindow.onload = function() \x7b\n  // Build a system\n  const ui = SwaggerUIBundle(\x7b\n    url: \""

/-- Literal text of `swaggerIndexTpl` (src/swagger.go lines 180-286), piece `tplP3`. -/
def tplP3 : String :=
  "\",\n    dom_id: \x27#swagger-ui\x27,\n    validatorUrl: null,\n    oauth2RedirectUrl: "

/-- Literal text of `swaggerIndexTpl` (src/swagger.go lines 180-286), piece `tplP4`. -/
def tplP4 : String :=
  ",\n    persistAuthorization: "

/-- Literal text of `swaggerIndexTpl` (src/swagger.go lines 180-286), piece `tplP5`. -/
def tplP5 : String :=
  ",\n    presets: [\n      SwaggerUIBundle.presets.apis,\n      SwaggerUIStandalonePreset\n    ],\n    plugins: [\n      SwaggerUIBundle.plugins.DownloadUrl\n    ],\n\tlayout: \"StandaloneLayout\",\n    docExpansion: \""

/-- Literal text of `swaggerIndexTpl` (src/swagger.go lines 180-286), piece `tplP6a`. -/
def tplP6a : String :=
  "\",\n\t"

/-- Literal text of `swaggerIndexTpl` (src/swagger.go lines 180-286), piece `tplP7a`. -/
def tplP7a : String :=
  ",\n\t"

/-- Literal text of `swaggerIndexTpl` (src/swagger.go lines 180-286), piece `tplP8`. -/
def tplP8 : String :=
  "\n  \x7d)\n\n  const defaultClientId = \""

/-- Literal text of `swaggerIndexTpl` (src/swagger.go lines 180-286), piece `tplP9`. -/
def tplP9 : String :=
  "\";\n  if (defaultClientId) \x7b\n    ui.initOAuth(\x7b\n      clientId: defaultClientId\n    \x7d)\n  \x7d\n\n  window.ui = ui\n\x7d\n</script>\n</body>\n\n</html>\n"

/-- The constant JavaScript template literal assigned to Oauth2RedirectURL in toSwaggerConfig (src/swagger.go lines 51-53). -/
def oauth2RedirectLit : String :=
  "\x60$\x7bwindow.location.protocol\x7d//$\x7bwindow.location.host\x7d$\x7bwindow.location.pathname.split(\x27/\x27).slice(0, window.location.pathname.split(\x27/\x27).length - 1).join(\x27/\x27)\x7d/oauth2-redirect.html\x60"

/-- `toSwaggerConfig` (src/swagger.go lines 45-58).  `Oauth2RedirectURL` is set to
the fixed JavaScript template literal `oauth2RedirectLit`: it is a constant that
does not depend on the request in any way. -/
def Config.toSwaggerConfig (config : Config) : swaggerConfig :=
  { URL := config.URL
    DeepLinking := config.DeepLinking
    DocExpansion := config.DocExpansion
    DefaultModelsExpandDepth := config.DefaultModelsExpandDepth
    Oauth2RedirectURL := oauth2RedirectLit
    Title := config.Title
    PersistAuthorization := config.PersistAuthorization
    Oauth2DefaultClientID := config.Oauth2DefaultClientID }

/-- `defaultConfig` (src/swagger.go lines 60-69).  The Go struct literal leaves
`Handler` at its zero value `nil` (`none` here) and the remaining unlisted string
and bool fields at `""` and `false`. -/
def defaultConfig : Config :=
  { URL := "doc.json"
    DocExpansion := "list"
    InstanceName := swagName
    Title := "Swagger UI"
    DefaultModelsExpandDepth := 1
    DeepLinking := true
    PersistAuthorization := false
    Oauth2DefaultClientID := ""
    Handler := none }

/-- The default-filling prologue of `New` (src/swagger.go lines 79-96).  The Go
code performs five sequential `if` assignments plus the `Handler` nil check; the
touched fields are pairwise distinct, so the sequential mutation is recorded here
field by field. -/
def applyDefaults (config : Config) : Config :=
  { URL := if config.URL = "" then "doc.json" else config.URL
    DocExpansion := if config.DocExpansion = "" then "list" else config.DocExpansion
    InstanceName := if config.InstanceName = "" then swagName else config.InstanceName
    Title := if config.Title = "" then "Swagger UI" else config.Title
    DefaultModelsExpandDepth :=
      if config.DefaultModelsExpandDepth = 0 then 1 else config.DefaultModelsExpandDepth
    DeepLinking := config.DeepLinking
    PersistAuthorization := config.PersistAuthorization
    Oauth2DefaultClientID := config.Oauth2DefaultClientID
    Handler := if config.Handler = none then some ProviderRef.shared else config.Handler }

/-- Configuration selection of `New` (src/swagger.go lines 72-96): the variadic
`cfg ...*Config` is modelled as a list; the first element is taken when present,
`defaultConfig` otherwise, and the zero-valued fields are then filled in. -/
def newConfig (cfg : List Config) : Config :=
  applyDefaults (match cfg with | [] => defaultConfig | c :: _ => c)

/-- The 13 alternatives of the second capture group of the route regexp
(src/swagger.go line 103), in their source order.  Go regexp alternation is
leftmost-first: at a given position the first listed alternative that matches is
taken. -/
def assetAlts : List String :=
  ["index.html", "doc.json", "favicon-16x16.png", "favicon-32x32.png",
   "/oauth2-redirect.html", "swagger-ui.css", "swagger-ui.css.map",
   "swagger-ui.js", "swagger-ui.js.map", "swagger-ui-bundle.js",
   "swagger-ui-bundle.js.map", "swagger-ui-standalone-preset.js",
   "swagger-ui-standalone-preset.js.map"]

/-- The first alternative (in source order) that is a prefix of `s`. -/
def altAt (s : List Char) : Option String :=
  assetAlts.find? (fun a => a.data.isPrefixOf s)

/-- `FindStringSubmatch` of the route regexp
`(.*)(index\.html|doc\.json|...)[?|.]*` (src/swagger.go lines 103, 111),
restricted to the two capture groups.  Go's regexp engine uses leftmost-first
(Perl-style) semantics; the pattern is unanchored and starts with a greedy
`(.*)`, so the split point between group 1 and group 2 is the rightmost
position at which some alternative matches, and at that position the first listed
alternative that matches is taken.  The trailing character class
`[?|.]*` (the literal characters `?`, `|`, `.`) always matches the empty
string, so it never influences either capture group.  Splits at position ≥ 1 are
preferred over a split at position 0, hence the recursive call is consulted
first; no alternative is empty, so the empty suffix never matches. -/
def matcherGo : List Char → Option (List Char × String)
  | [] => none
  | c :: rest =>
    match matcherGo rest with
    | some (p, a) => some (c :: p, a)
    | none =>
      match altAt (c :: rest) with
      | some a => some ([], a)
      | none => none

/-- Group 1 (path before the asset name) and group 2 (asset name) of the route
regexp match on the full request URI, or `none` when the regexp does not match
(`len(matches) != 3` in the Go code). -/
def matcherFind (s : String) : Option (String × String) :=
  (matcherGo s.data).map (fun pa => (String.mk pa.1, pa.2))

/-- Backward scan of Go's `filepath.Ext`: walk from the end of the path, stop at a
path separator, return from the final dot.  The first argument is the reversed
remaining path, the second the characters already passed (in forward order). -/
def extGo : List Char → List Char → String
  | [], _ => ""
  | c :: rest, acc =>
    if c = '/' then ""
    else if c = '.' then String.mk (c :: acc)
    else extGo rest (c :: acc)

/-- Go `filepath.Ext`: the suffix beginning at the final dot in the final path
element, `""` when there is no dot. -/
def filepathExt (p : String) : String := extGo p.data.reverse []

/-- The content-type switch on the file extension (src/swagger.go lines 134-145):
unmatched extensions set no explicit Content-Type header. -/
def ctFor (e : String) : Option String :=
  if e = ".html" then some "text/html; charset=utf-8"
  else if e = ".css" then some "text/css; charset=utf-8"
  else if e = ".js" then some "application/javascript"
  else if e = ".png" then some "image/png"
  else if e = ".json" then some "application/json; charset=utf-8"
  else none
/-- One character of Go `html/template` escaping in an HTML text context
(the library's `htmlEscaper` replacement table, modelled on its five escaped
printable characters). -/
def htmlEscapeChar (c : Char) : String :=
  if c = '<' then "&lt;"
  else if c = '>' then "&gt;"
  else if c = '&' then "&amp;"
  else if c = '\x27' then "&#39;"
  else if c = '\x22' then "&#34;"
  else String.mk [c]

/-- Go `html/template` escaping of an interpolation in an HTML text context. -/
def htmlEscape (s : String) : String := String.join (s.data.map htmlEscapeChar)

/-- One character of Go `html/template` escaping inside a JavaScript string
literal (the library's `jsStrEscaper`, modelled on its principal escaped
characters). -/
def jsStrEscapeChar (c : Char) : String :=
  if c = '\\' then "\\\\"
  else if c = '\x27' then "\\u0027"
  else if c = '\x22' then "\\u0022"
  else if c = '<' then "\\u003c"
  else if c = '>' then "\\u003e"
  else if c = '&' then "\\u0026"
  else String.mk [c]

/-- Go `html/template` escaping of an interpolation inside a quoted JavaScript
string literal. -/
def jsStrEscape (s : String) : String := String.join (s.data.map jsStrEscapeChar)

/-- Rendering of a Go `bool` interpolated in a JavaScript context. -/
def goBool (b : Bool) : String := if b then "true" else "false"

/-- Rendering of a Go `int` interpolated in a JavaScript context. -/
def goInt (i : Int) : String := toString i

/-- `index.Execute`: the output of rendering `swaggerIndexTpl` (src/swagger.go
lines 101, 149, 180-286) with a `swaggerConfig` value.  The template text is the
concatenation of the literal pieces `tplP1` ... `tplP9` around the eight
interpolation actions; `{{.Title}}` sits in an HTML text context, `{{.URL}}`,
`{{.DocExpansion}}` and `{{.Oauth2DefaultClientID}}` inside quoted JavaScript
strings, `{{.PersistAuthorization}}`, `{{.DeepLinking}}` and
`{{.DefaultModelsExpandDepth}}` as bare JavaScript values, and
`{{.Oauth2RedirectURL}}` is a `template.JS` value emitted verbatim. -/
def renderIndex (c : swaggerConfig) : String :=
  tplP1 ++ (htmlEscape c.Title ++
  (tplP2 ++ (jsStrEscape c.URL ++
  (tplP3 ++ (c.Oauth2RedirectURL ++
  (tplP4 ++ (goBool c.PersistAuthorization ++
  (tplP5 ++ (jsStrEscape c.DocExpansion ++
  (tplP6a ++ ("deepLinking: " ++ (goBool c.DeepLinking ++
  (tplP7a ++ ("defaultModelsExpandDepth: " ++ (goInt c.DefaultModelsExpandDepth ++
  (tplP8 ++ (jsStrEscape c.Oauth2DefaultClientID ++
  tplP9)))))))))))))))))

/-- The raw template constant `swaggerIndexTpl` (src/swagger.go lines 180-286)
reassembled from its literal pieces and the eight interpolation actions. -/
def swaggerIndexTpl : String :=
  tplP1 ++ "\x7b\x7b.Title\x7d\x7d" ++
  tplP2 ++ "\x7b\x7b.URL\x7d\x7d" ++
  tplP3 ++ "\x7b\x7b.Oauth2RedirectURL\x7d\x7d" ++
  tplP4 ++ "\x7b\x7b.PersistAuthorization\x7d\x7d" ++
  tplP5 ++ "\x7b\x7b.DocExpansion\x7d\x7d" ++
  tplP6a ++ "deepLinking: " ++ "\x7b\x7b.DeepLinking\x7d\x7d" ++
  tplP7a ++ "defaultModelsExpandDepth: " ++ "\x7b\x7b.DefaultModelsExpandDepth\x7d\x7d" ++
  tplP8 ++ "\x7b\x7b.Oauth2DefaultClientID\x7d\x7d" ++
  tplP9

/-- One HTTP request as seen by the handler: its method, the full URI string
(`ctx.Request.URI().String()`), and the value of the route wildcard parameter
(`ctx.Param("any")`; `""` when the route carried no wildcard segment). -/
structure Request where
  method : String
  uri : String
  paramAny : String
deriving DecidableEq, Repr

/-- The external collaborators of one handler invocation.  `readDoc` is
`swag.ReadDoc` (the OpenAPI document registry, keyed by instance name);
`openFile` is `config.Handler.FileSystem.OpenFile` composed with reading the
opened file to the end: the outer `Except` is the open result, the inner one the
read result with the full contents on success.  `writeOk` tells whether writes of
the response body succeed. -/
structure Env where
  readDoc : String → Except Unit String
  openFile : String → Except Unit (Except Unit String)
  writeOk : Bool

/-- The mutable state shared by all invocations of one handler closure:
`onceDone` is whether the `sync.Once` guard has fired, `pfx` the provider's
`config.Handler.Prefix` field. -/
structure HandlerState where
  onceDone : Bool
  pfx : String
deriving DecidableEq, Repr

/-- The observable outcome of one invocation: status code, explicit Content-Type
header (if any), accumulated body, and flags recording whether the route regexp
was consulted, a provider file was opened, the document registry was queried, and
the index template was rendered. -/
structure Response where
  status : Nat
  contentType : Option String
  body : String
  matchedRoute : Bool
  openedFile : Bool
  lookedUpDoc : Bool
  renderedTpl : Bool
deriving DecidableEq, Repr

/-- The leaf asset name derived from the request (src/swagger.go lines 117-122):
group 2 of the regexp match when the route carried a wildcard segment,
`"index.html"` otherwise.  The `none` branch of the inner match is unreachable in
the handler (a failed match on a wildcard route answers 404 first; the Go code
would panic there). -/
def derivedLeaf (req : Request) : String :=
  if req.paramAny ≠ "" then
    match matcherFind req.uri with
    | some (_, leaf) => leaf
    | none => ""
  else "index.html"

/-- The prefix derived from the request (src/swagger.go lines 123-128): group 1
of the regexp match, or the full URI string when the regexp did not match. -/
def derivedPfx (req : Request) : String :=
  match matcherFind req.uri with
  | some (p, _) => p
  | none => req.uri

/-- The `switch path` dispatch (src/swagger.go lines 147-176).  `index.html`
renders the template (the `Execute` error is discarded, so the status stays 200
even when the write fails); `doc.json` queries the registry and aborts with 500
on lookup or write failure; any other leaf is opened in the static-file provider,
read fully, and written, aborting with 500 on open, read, or write failure. -/
def dispatch (config : Config) (env : Env) (path : String) (ct : Option String) :
    Response :=
  if path = "index.html" then
    { status := 200, contentType := ct,
      body := if env.writeOk then renderIndex config.toSwaggerConfig else "",
      matchedRoute := true, openedFile := false, lookedUpDoc := false,
      renderedTpl := true }
  else if path = "doc.json" then
    match env.readDoc config.InstanceName with
    | Except.error _ =>
      { status := 500, contentType := ct, body := "",
        matchedRoute := true, openedFile := false, lookedUpDoc := true,
        renderedTpl := false }
    | Except.ok doc =>
      if env.writeOk then
        { status := 200, contentType := ct, body := doc,
          matchedRoute := true, openedFile := false, lookedUpDoc := true,
          renderedTpl := false }
      else
        { status := 500, contentType := ct, body := "",
          matchedRoute := true, openedFile := false, lookedUpDoc := true,
          renderedTpl := false }
  else
    match env.openFile path with
    | Except.error _ =>
      { status := 500, contentType := ct, body := "",
        matchedRoute := true, openedFile := true, lookedUpDoc := false,
        renderedTpl := false }
    | Except.ok (Except.error _) =>
      { status := 500, contentType := ct, body := "",
        matchedRoute := true, openedFile := true, lookedUpDoc := false,
        renderedTpl := false }
    | Except.ok (Except.ok contents) =>
      if env.writeOk then
        { status := 200, contentType := ct, body := contents,
          matchedRoute := true, openedFile := true, lookedUpDoc := false,
          renderedTpl := false }
      else
        { status := 500, contentType := ct, body := "",
          matchedRoute := true, openedFile := true, lookedUpDoc := false,
          renderedTpl := false }

/-- One invocation of the handler closure returned by `New` (src/swagger.go
lines 105-177).  Non-GET methods abort with 405 before any route matching; a
wildcard request whose URI the regexp does not match answers 404 with the
standard status text; otherwise the leaf and prefix are derived, the
`sync.Once` guard records the prefix on its first execution, the Content-Type
header is selected from the leaf's extension, and the request is dispatched on
the leaf.  Returns the response together with the updated shared state. -/
def handle (config : Config) (env : Env) (st : HandlerState) (req : Request) :
    Response × HandlerState :=
  if req.method ≠ "GET" then
    ({ status := 405, contentType := none, body := "",
       matchedRoute := false, openedFile := false, lookedUpDoc := false,
       renderedTpl := false }, st)
  else if matcherFind req.uri = none ∧ req.paramAny ≠ "" then
    ({ status := 404, contentType := none, body := "Not Found",
       matchedRoute := true, openedFile := false, lookedUpDoc := false,
       renderedTpl := false }, st)
  else
    (dispatch config env (derivedLeaf req) (ctFor (filepathExt (derivedLeaf req))),
     if st.onceDone then st else { onceDone := true, pfx := derivedPfx req })

/-- Sequential processing of a list of requests by one handler closure,
threading the shared state. -/
def handleSeq (config : Config) (env : Env) : HandlerState → List Request → HandlerState
  | st, [] => st
  | st, r :: rs => handleSeq config env (handle config env st r).2 rs

/-- `t` occurs as a contiguous substring of `s`. -/
def SContains (s t : String) : Prop := ∃ a b, s = a ++ (t ++ b)

/-- A string contains any of its leading chunks' successors: base case, the
substring sits at the front. -/
theorem SContains.base (t b : String) : SContains (t ++ b) t := ⟨"", b, rfl⟩

/-- Prepending a chunk preserves substring containment. -/
theorem SContains.step (c : String) {s t : String} (h : SContains s t) :
    SContains (c ++ s) t := by
  obtain ⟨a, b, rfl⟩ := h
  exact ⟨c ++ a, b, (String.append_assoc c a (t ++ b)).symm⟩

/-- A substring assembled from two adjacent chunks. -/
theorem SContains.merge (x y b t : String) (h : x ++ y = t) :
    SContains (x ++ (y ++ b)) t := by
  refine ⟨"", b, ?_⟩
  rw [← String.append_assoc, h]
  rfl
/-- A configuration with `Title="Demo"`, `URL="doc.json"`, `DeepLinking=true`,
`DefaultModelsExpandDepth=1`; the remaining fields carry their default values. -/
def demoCfg : Config :=
  { URL := "doc.json"
    DocExpansion := "list"
    InstanceName := swagName
    Title := "Demo"
    DefaultModelsExpandDepth := 1
    DeepLinking := true
    PersistAuthorization := false
    Oauth2DefaultClientID := ""
    Handler := some ProviderRef.shared }

/-- A concrete environment whose registry holds a document for instance
`"swagger"` and whose provider holds a file `swagger-ui.css`; writes succeed. -/
def envDemo : Env :=
  { readDoc := fun name =>
      if name = "swagger" then Except.ok "\x7b\x22swagger\x22:\x222.0\x22\x7d"
      else Except.error ()
    openFile := fun p =>
      if p = "swagger-ui.css" then Except.ok (Except.ok ".swagger-ui\x7bcolor:#3b4151\x7d")
      else Except.error ()
    writeOk := true }

/-- A concrete environment whose registry and provider fail every request;
writes succeed. -/
def envFail : Env :=
  { readDoc := fun _ => Except.error ()
    openFile := fun _ => Except.error ()
    writeOk := true }

/-- The all-zero configuration (Go zero value of `Config`). -/
def zeroCfg : Config :=
  { URL := ""
    DocExpansion := ""
    InstanceName := ""
    Title := ""
    DefaultModelsExpandDepth := 0
    DeepLinking := false
    PersistAuthorization := false
    Oauth2DefaultClientID := ""
    Handler := none }

/-- A GET request for the mount root: the route carries no wildcard segment. -/
def reqRoot : Request :=
  { method := "GET", uri := "http://localhost:8888/swagger/", paramAny := "" }

/-- A POST request for `index.html` on the wildcard route. -/
def reqPost : Request :=
  { method := "POST", uri := "http://localhost:8888/swagger/index.html",
    paramAny := "/index.html" }

/-- A GET request for `index.html` on the wildcard route. -/
def reqIndex : Request :=
  { method := "GET", uri := "http://localhost:8888/swagger/index.html",
    paramAny := "/index.html" }

/-- A GET request for `swagger-ui.css` on the wildcard route. -/
def reqCss : Request :=
  { method := "GET", uri := "http://localhost:8888/swagger/swagger-ui.css",
    paramAny := "/swagger-ui.css" }

/-- A GET request for `doc.json` on the wildcard route. -/
def reqDoc : Request :=
  { method := "GET", uri := "http://localhost:8888/swagger/doc.json",
    paramAny := "/doc.json" }

/-- A GET request for `swagger-ui.css.map` on the wildcard route. -/
def reqCssMap : Request :=
  { method := "GET", uri := "http://localhost:8888/swagger/swagger-ui.css.map",
    paramAny := "/swagger-ui.css.map" }

/-- A GET request whose wildcard path names no recognized asset. -/
def reqUnknown : Request :=
  { method := "GET", uri := "http://localhost:8888/swagger/unknown.txt",
    paramAny := "/unknown.txt" }

/-- A GET request for `index.html` served from origin `alpha.example`. -/
def reqAlpha : Request :=
  { method := "GET", uri := "http://alpha.example/swagger/index.html",
    paramAny := "/index.html" }

/-- A GET request for `index.html` served from a different origin
`beta.example:9443` over https. -/
def reqBeta : Request :=
  { method := "GET", uri := "https://beta.example:9443/swagger/index.html",
    paramAny := "/index.html" }

/-- A GET request for `index.html` mounted under a different prefix than
`reqIndex`. -/
def reqOther : Request :=
  { method := "GET", uri := "http://other.example/docs/index.html",
    paramAny := "/index.html" }

/-- The shared state before any request has been handled: the guard has not
fired and the provider prefix is empty. -/
def stInit : HandlerState := { onceDone := false, pfx := "" }
/-- The dispatch never changes the Content-Type header chosen from the
extension: every branch answers with the `ct` it was handed. -/
theorem dispatch_contentType (config : Config) (env : Env) (path : String)
    (ct : Option String) : (dispatch config env path ct).contentType = ct := by
  unfold dispatch
  split
  · rfl
  split
  · split <;> first | rfl | split <;> rfl
  · split <;> first | rfl | split <;> rfl

/-- Once the guard has fired, a single further request leaves the shared state
untouched. -/
theorem handle_onceDone_fixed (config : Config) (env : Env) (st : HandlerState)
    (req : Request) (h : st.onceDone = true) : (handle config env st req).2 = st := by
  unfold handle
  split
  · rfl
  split
  · rfl
  · simp [h]

/-- Once the guard has fired, any sequence of further requests leaves the shared
state untouched. -/
theorem handleSeq_onceDone_fixed (config : Config) (env : Env) :
    ∀ (st : HandlerState) (reqs : List Request), st.onceDone = true →
      handleSeq config env st reqs = st := by
  intro st reqs h
  induction reqs with
  | nil => rfl
  | cons r rs ih =>
    rw [handleSeq, handle_onceDone_fixed config env st r h]
    exact ih

/-- Claim C8: a request whose method is not GET is answered 405 with no route
matching, no body write, and an unchanged shared state (hence no prefix write). -/
theorem c8_non_get_rejected (config : Config) (env : Env) (st : HandlerState)
    (req : Request) (h : req.method ≠ "GET") :
    (handle config env st req).1.status = 405 ∧
    (handle config env st req).1.matchedRoute = false ∧
    (handle config env st req).1.body = "" ∧
    (handle config env st req).2 = st := by
  unfold handle
  rw [if_pos h]
  exact ⟨rfl, rfl, rfl, rfl⟩

/-- Witness for C8 at a concrete POST request. -/
theorem c8_witness :
    (handle demoCfg envDemo stInit reqPost).1.status = 405 ∧
    (handle demoCfg envDemo stInit reqPost).2 = stInit :=
  ⟨(c8_non_get_rejected demoCfg envDemo stInit reqPost (by decide)).1,
   (c8_non_get_rejected demoCfg envDemo stInit reqPost (by decide)).2.2.2⟩

/-- Claim C7: a GET request with a wildcard segment whose URI the route regexp
does not match is answered 404, with no file open, no document lookup, no
template render, and an unchanged shared state. -/
theorem c7_unmatched_wildcard_404 (config : Config) (env : Env)
    (st : HandlerState) (req : Request) (h1 : req.method = "GET")
    (h2 : matcherFind req.uri = none) (h3 : req.paramAny ≠ "") :
    (handle config env st req).1.status = 404 ∧
    (handle config env st req).1.openedFile = false ∧
    (handle config env st req).1.lookedUpDoc = false ∧
    (handle config env st req).1.renderedTpl = false ∧
    (handle config env st req).2 = st := by
  unfold handle
  rw [if_neg (by simp [h1]), if_pos ⟨h2, h3⟩]
  exact ⟨rfl, rfl, rfl, rfl, rfl⟩

/-- Witness for C7 at a concrete unrecognized wildcard path. -/
theorem c7_witness :
    (handle demoCfg envDemo stInit reqUnknown).1.status = 404 ∧
    (handle demoCfg envDemo stInit reqUnknown).1.openedFile = false :=
  ⟨(c7_unmatched_wildcard_404 demoCfg envDemo stInit reqUnknown rfl (by decide)
      (by decide)).1,
   (c7_unmatched_wildcard_404 demoCfg envDemo stInit reqUnknown rfl (by decide)
      (by decide)).2.1⟩

/-- Counterexample to claim C2 as stated: in the sequence `[reqPost, reqIndex]`
the first request (a POST, rejected 405) records nothing, and the second
request — a request after the first — does change `Handler.Prefix`. -/
theorem c2_counterexample :
    (handle demoCfg envDemo stInit reqPost).2 = stInit ∧
    (handle demoCfg envDemo (handle demoCfg envDemo stInit reqPost).2 reqIndex).2.pfx ≠
      (handle demoCfg envDemo stInit reqPost).2.pfx := by
  constructor
  · rfl
  · decide

/-- Claim C2 as amended: the prefix is recorded by the first request that passes
the method and route checks (GET and not answered 404); from then on the guard
has fired and every further sequence of requests leaves the shared state — in
particular `Handler.Prefix` — unchanged, even when a later request's derived
prefix differs. -/
theorem c2_prefix_recorded_once (config : Config) (env : Env) (st : HandlerState)
    (req : Request) (reqs : List Request) (h1 : st.onceDone = false)
    (h2 : req.method = "GET")
    (h3 : ¬(matcherFind req.uri = none ∧ req.paramAny ≠ "")) :
    (handle config env st req).2.onceDone = true ∧
    (handle config env st req).2.pfx = derivedPfx req ∧
    handleSeq config env (handle config env st req).2 reqs =
      (handle config env st req).2 := by
  have hsnd : (handle config env st req).2 = { onceDone := true, pfx := derivedPfx req } := by
    unfold handle
    rw [if_neg (by simp [h2]), if_neg h3]
    simp [h1]
  refine ⟨by rw [hsnd], by rw [hsnd], ?_⟩
  rw [hsnd]
  exact handleSeq_onceDone_fixed config env _ reqs rfl

/-- Witness for C2 (amended) at a concrete first request followed by a request
whose derived prefix differs. -/
theorem c2_witness :
    (handle demoCfg envDemo stInit reqIndex).2.pfx = derivedPfx reqIndex ∧
    handleSeq demoCfg envDemo (handle demoCfg envDemo stInit reqIndex).2 [reqOther] =
      (handle demoCfg envDemo stInit reqIndex).2 :=
  ⟨(c2_prefix_recorded_once demoCfg envDemo stInit reqIndex [reqOther] rfl rfl
      (by decide)).2.1,
   (c2_prefix_recorded_once demoCfg envDemo stInit reqIndex [reqOther] rfl rfl
      (by decide)).2.2⟩

/-- Claim C10: every zero-valued configuration field is replaced by its default
at construction: empty URL becomes `doc.json`, empty doc-expansion becomes
`list`, empty instance name becomes the registry default, empty title becomes
`Swagger UI`, expansion depth 0 becomes 1 (so an explicit 0 is indistinguishable
from unset), and a nil provider becomes the library's shared provider. -/
theorem c10_zero_defaults (config : Config) :
    (config.URL = "" → (newConfig [config]).URL = "doc.json") ∧
    (config.DocExpansion = "" → (newConfig [config]).DocExpansion = "list") ∧
    (config.InstanceName = "" → (newConfig [config]).InstanceName = swagName) ∧
    (config.Title = "" → (newConfig [config]).Title = "Swagger UI") ∧
    (config.DefaultModelsExpandDepth = 0 →
      (newConfig [config]).DefaultModelsExpandDepth = 1) ∧
    (config.Handler = none → (newConfig [config]).Handler = some ProviderRef.shared) := by
  refine ⟨?_, ?_, ?_, ?_, ?_, ?_⟩ <;> intro h <;> simp [newConfig, applyDefaults, h]

/-- Witness for C10 at the all-zero configuration. -/
theorem c10_witness :
    (newConfig [zeroCfg]).URL = "doc.json" ∧
    (newConfig [zeroCfg]).DocExpansion = "list" ∧
    (newConfig [zeroCfg]).InstanceName = swagName ∧
    (newConfig [zeroCfg]).Title = "Swagger UI" ∧
    (newConfig [zeroCfg]).DefaultModelsExpandDepth = 1 ∧
    (newConfig [zeroCfg]).Handler = some ProviderRef.shared :=
  ⟨(c10_zero_defaults zeroCfg).1 rfl, (c10_zero_defaults zeroCfg).2.1 rfl,
   (c10_zero_defaults zeroCfg).2.2.1 rfl, (c10_zero_defaults zeroCfg).2.2.2.1 rfl,
   (c10_zero_defaults zeroCfg).2.2.2.2.1 rfl,
   (c10_zero_defaults zeroCfg).2.2.2.2.2 rfl⟩
/-- A GET request on the wildcard route whose URI matches with leaf `leaf` is
dispatched on `leaf` with the Content-Type selected from `leaf`'s extension. -/
theorem handle_matched_get (config : Config) (env : Env) (st : HandlerState)
    (req : Request) (p leaf : String) (h1 : req.method = "GET")
    (hm : matcherFind req.uri = some (p, leaf)) (h3 : req.paramAny ≠ "") :
    (handle config env st req).1 =
      dispatch config env leaf (ctFor (filepathExt leaf)) := by
  have hleaf : derivedLeaf req = leaf := by simp [derivedLeaf, h3, hm]
  unfold handle
  rw [if_neg (by simp [h1]), if_neg (by simp [hm]), hleaf]

/-- Claim C3: for a GET request resolving to leaf `swagger-ui.css`, an open
failure in the static-file provider yields status 500; when open, read, and
write succeed, the response carries Content-Type `text/css; charset=utf-8` and
the body is exactly the provider's file contents. -/
theorem c3_css_roundtrip (config : Config) (env : Env) (st : HandlerState)
    (req : Request) (p : String) (h1 : req.method = "GET")
    (hm : matcherFind req.uri = some (p, "swagger-ui.css"))
    (h3 : req.paramAny ≠ "") :
    (env.openFile "swagger-ui.css" = Except.error () →
      (handle config env st req).1.status = 500) ∧
    (∀ contents, env.openFile "swagger-ui.css" = Except.ok (Except.ok contents) →
      env.writeOk = true →
      (handle config env st req).1.status = 200 ∧
      (handle config env st req).1.contentType = some "text/css; charset=utf-8" ∧
      (handle config env st req).1.body = contents) := by
  have hd := handle_matched_get config env st req p "swagger-ui.css" h1 hm h3
  constructor
  · intro hopen
    rw [hd]
    unfold dispatch
    rw [if_neg (by decide), if_neg (by decide), hopen]
  · intro contents hopen hw
    rw [hd]
    unfold dispatch
    rw [if_neg (by decide), if_neg (by decide), hopen, hw]
    exact ⟨rfl, rfl, rfl⟩

/-- Witness for C3: the failing provider answers 500; the succeeding provider
round-trips the file bytes under the css Content-Type. -/
theorem c3_witness :
    (handle demoCfg envFail stInit reqCss).1.status = 500 ∧
    (handle demoCfg envDemo stInit reqCss).1.contentType =
      some "text/css; charset=utf-8" ∧
    (handle demoCfg envDemo stInit reqCss).1.body =
      ".swagger-ui\x7bcolor:#3b4151\x7d" :=
  ⟨(c3_css_roundtrip demoCfg envFail stInit reqCss "http://localhost:8888/swagger/"
      rfl (by decide) (by decide)).1 rfl,
   ((c3_css_roundtrip demoCfg envDemo stInit reqCss "http://localhost:8888/swagger/"
      rfl (by decide) (by decide)).2 ".swagger-ui\x7bcolor:#3b4151\x7d" rfl rfl).2.1,
   ((c3_css_roundtrip demoCfg envDemo stInit reqCss "http://localhost:8888/swagger/"
      rfl (by decide) (by decide)).2 ".swagger-ui\x7bcolor:#3b4151\x7d" rfl rfl).2.2⟩

/-- Claim C4: for a GET request resolving to leaf `doc.json`, a registry lookup
failure for the configured instance name yields status 500 with no body bytes
written; a successful lookup writes the raw document bytes as the body. -/
theorem c4_doc_json (config : Config) (env : Env) (st : HandlerState)
    (req : Request) (p : String) (h1 : req.method = "GET")
    (hm : matcherFind req.uri = some (p, "doc.json"))
    (h3 : req.paramAny ≠ "") :
    (env.readDoc config.InstanceName = Except.error () →
      (handle config env st req).1.status = 500 ∧
      (handle config env st req).1.body = "") ∧
    (∀ doc, env.readDoc config.InstanceName = Except.ok doc →
      env.writeOk = true →
      (handle config env st req).1.status = 200 ∧
      (handle config env st req).1.body = doc) := by
  have hd := handle_matched_get config env st req p "doc.json" h1 hm h3
  constructor
  · intro hr
    rw [hd]
    unfold dispatch
    rw [if_neg (by decide), if_pos rfl, hr]
    exact ⟨rfl, rfl⟩
  · intro doc hr hw
    rw [hd]
    unfold dispatch
    rw [if_neg (by decide), if_pos rfl, hr, hw]
    exact ⟨rfl, rfl⟩

/-- Witness for C4: the empty registry answers 500 with an empty body; the
populated registry's document comes back verbatim. -/
theorem c4_witness :
    ((handle demoCfg envFail stInit reqDoc).1.status = 500 ∧
      (handle demoCfg envFail stInit reqDoc).1.body = "") ∧
    (handle demoCfg envDemo stInit reqDoc).1.body =
      "\x7b\x22swagger\x22:\x222.0\x22\x7d" :=
  ⟨(c4_doc_json demoCfg envFail stInit reqDoc "http://localhost:8888/swagger/"
      rfl (by decide) (by decide)).1 rfl,
   ((c4_doc_json demoCfg envDemo stInit reqDoc "http://localhost:8888/swagger/"
      rfl (by decide) (by decide)).2 "\x7b\x22swagger\x22:\x222.0\x22\x7d" rfl rfl).2⟩

/-- Claim C6: every request that is served (neither 405 nor 404) carries the
Content-Type selected solely from the derived leaf's file extension: `.html`,
`.css`, `.js`, `.png` and `.json` map to their fixed values and any other
extension sets no explicit Content-Type. -/
theorem c6_content_type_by_extension (config : Config) (env : Env)
    (st : HandlerState) (req : Request)
    (h1 : (handle config env st req).1.status ≠ 405)
    (h2 : (handle config env st req).1.status ≠ 404) :
    (handle config env st req).1.contentType =
      (if filepathExt (derivedLeaf req) = ".html" then some "text/html; charset=utf-8"
       else if filepathExt (derivedLeaf req) = ".css" then some "text/css; charset=utf-8"
       else if filepathExt (derivedLeaf req) = ".js" then some "application/javascript"
       else if filepathExt (derivedLeaf req) = ".png" then some "image/png"
       else if filepathExt (derivedLeaf req) = ".json" then
         some "application/json; charset=utf-8"
       else none) := by
  by_cases hm : req.method ≠ "GET"
  · exfalso
    apply h1
    unfold handle
    rw [if_pos hm]
  · by_cases hf : matcherFind req.uri = none ∧ req.paramAny ≠ ""
    · exfalso
      apply h2
      unfold handle
      rw [if_neg hm, if_pos hf]
    · have hh : (handle config env st req).1 =
          dispatch config env (derivedLeaf req)
            (ctFor (filepathExt (derivedLeaf req))) := by
        unfold handle
        rw [if_neg hm, if_neg hf]
      rw [hh, dispatch_contentType]
      rfl

/-- Witness for C6 at a concrete served request (`swagger-ui.css`, extension
`.css`). -/
theorem c6_witness :
    (handle demoCfg envDemo stInit reqCss).1.contentType =
      some "text/css; charset=utf-8" :=
  (c6_content_type_by_extension demoCfg envDemo stInit reqCss (by decide)
      (by decide)).trans (by decide)

/-- Claim C1 (evaluation at the failing input): the wildcard GET request for
`swagger-ui.css.map` derives leaf `swagger-ui.css` — not `swagger-ui.css.map` —
because the regexp alternation lists `swagger-ui\.css` first and Go's
leftmost-first matching stops there; the root request without a wildcard
segment does derive `index.html`. -/
theorem c1_map_leaf_eval :
    derivedLeaf reqCssMap = "swagger-ui.css" ∧
    derivedLeaf reqCssMap ≠ "swagger-ui.css.map" ∧
    derivedLeaf reqRoot = "index.html" := by
  refine ⟨rfl, by decide, rfl⟩
/-- The index body rendered for the demo configuration, written as its chunk
decomposition with every substitution evaluated. -/
theorem renderIndex_demo :
    renderIndex demoCfg.toSwaggerConfig =
      tplP1 ++ ("Demo" ++ (tplP2 ++ ("doc.json" ++ (tplP3 ++ (oauth2RedirectLit ++
      (tplP4 ++ ("false" ++ (tplP5 ++ ("list" ++ (tplP6a ++ ("deepLinking: " ++
      ("true" ++ (tplP7a ++ ("defaultModelsExpandDepth: " ++ ("1" ++ (tplP8 ++
      ("" ++ tplP9))))))))))))))))) := rfl

/-- Claim C5: the body rendered for a GET request resolving to `index.html`
under the demo configuration (`Title="Demo"`, `URL="doc.json"`,
`DeepLinking=true`, `DefaultModelsExpandDepth=1`) contains the literal
substrings `Demo`, `doc.json`, `deepLinking: true` and
`defaultModelsExpandDepth: 1`. -/
theorem c5_index_substrings :
    SContains (handle demoCfg envDemo stInit reqRoot).1.body "Demo" ∧
    SContains (handle demoCfg envDemo stInit reqRoot).1.body "doc.json" ∧
    SContains (handle demoCfg envDemo stInit reqRoot).1.body "deepLinking: true" ∧
    SContains (handle demoCfg envDemo stInit reqRoot).1.body
      "defaultModelsExpandDepth: 1" := by
  have hb : (handle demoCfg envDemo stInit reqRoot).1.body =
      renderIndex demoCfg.toSwaggerConfig := rfl
  rw [hb, renderIndex_demo]
  refine ⟨?_, ?_, ?_, ?_⟩
  · exact SContains.step _ (SContains.base "Demo" _)
  · exact SContains.step _ (SContains.step _ (SContains.step _
      (SContains.base "doc.json" _)))
  · exact SContains.step _ (SContains.step _ (SContains.step _ (SContains.step _
      (SContains.step _ (SContains.step _ (SContains.step _ (SContains.step _
      (SContains.step _ (SContains.step _ (SContains.step _
      (SContains.merge "deepLinking: " "true" _ _ rfl)))))))))))
  · exact SContains.step _ (SContains.step _ (SContains.step _ (SContains.step _
      (SContains.step _ (SContains.step _ (SContains.step _ (SContains.step _
      (SContains.step _ (SContains.step _ (SContains.step _ (SContains.step _
      (SContains.step _ (SContains.step _
      (SContains.merge "defaultModelsExpandDepth: " "1" _ _ rfl))))))))))))))

/-- Counterexample to claim C9 as stated: two GET requests for `index.html`
under the same configuration but with different origins receive identical
bodies — the rendered body does not depend on the request's origin, so the
embedded OAuth2 redirect URL cannot reflect the respective origins. -/
theorem c9_counterexample :
    reqAlpha.uri ≠ reqBeta.uri ∧
    (handle demoCfg envDemo stInit reqAlpha).1.body =
      (handle demoCfg envDemo stInit reqBeta).1.body :=
  ⟨by decide, rfl⟩

/-- Claim C9 as amended: the OAuth2 redirect URL embedded in the rendered
`index.html` is the fixed JavaScript template literal `oauth2RedirectLit`,
which computes the redirect target in the browser from `window.location`; the
server-rendered body is independent of the request's origin, so any two GET
requests resolving to `index.html` under the same configuration receive equal
bodies. -/
theorem c9_body_origin_independent (config : Config) (env : Env)
    (st : HandlerState) (r₁ r₂ : Request) (h₁ : r₁.method = "GET")
    (h₂ : r₂.method = "GET") (h₃ : derivedLeaf r₁ = "index.html")
    (h₄ : derivedLeaf r₂ = "index.html")
    (h₅ : ¬(matcherFind r₁.uri = none ∧ r₁.paramAny ≠ ""))
    (h₆ : ¬(matcherFind r₂.uri = none ∧ r₂.paramAny ≠ "")) :
    (handle config env st r₁).1.body = (handle config env st r₂).1.body ∧
    (env.writeOk = true →
      SContains (handle config env st r₁).1.body oauth2RedirectLit) := by
  have e₁ : (handle config env st r₁).1 =
      dispatch config env "index.html" (ctFor (filepathExt "index.html")) := by
    unfold handle
    rw [if_neg (by simp [h₁]), if_neg h₅, h₃]
  have e₂ : (handle config env st r₂).1 =
      dispatch config env "index.html" (ctFor (filepathExt "index.html")) := by
    unfold handle
    rw [if_neg (by simp [h₂]), if_neg h₆, h₄]
  constructor
  · rw [e₁, e₂]
  · intro hw
    rw [e₁]
    unfold dispatch
    rw [if_pos rfl, hw]
    show SContains (renderIndex config.toSwaggerConfig) oauth2RedirectLit
    exact SContains.step _ (SContains.step _ (SContains.step _ (SContains.step _
      (SContains.step _ (SContains.base oauth2RedirectLit _)))))

/-- Witness for C9 (amended) at two concrete requests with different origins. -/
theorem c9_witness :
    (handle demoCfg envDemo stInit reqAlpha).1.body =
      (handle demoCfg envDemo stInit reqBeta).1.body ∧
    SContains (handle demoCfg envDemo stInit reqAlpha).1.body oauth2RedirectLit :=
  ⟨(c9_body_origin_independent demoCfg envDemo stInit reqAlpha reqBeta rfl rfl
      rfl rfl (by decide) (by decide)).1,
   (c9_body_origin_independent demoCfg envDemo stInit reqAlpha reqBeta rfl rfl
      rfl rfl (by decide) (by decide)).2 rfl⟩
